import Mathlib

/-!
Shallow embedding of the snap-ratio thumbnail-capture extension core:
the coordinate mapping of `processImage`, the token cache of `getAuthToken`,
the 5-step remote compression workflow of `compressImage`, and the
orchestration of `handleScreenshotCapture` (background service worker),
together with `imageConfig` (src/config/image.ts) and the API configuration.

JavaScript numbers are modelled as rationals, epoch milliseconds as
integers, and blobs as lists of byte values.  Network interactions are
modelled by an explicit environment recording the outcome of each remote
call; `fetch` rejections, non-ok HTTP statuses, JSON-parse failures and
response bodies are distinguished exactly as the source distinguishes them.
-/

namespace SnapRatio

/-- A blob is its byte content; `Blob.size` in the source is the length. -/
abbrev Blob := List Nat

/-- Output image format, the two values of `imageConfig.format`
(`"image/jpeg" | "image/png"` in src/config/image.ts). -/
inductive ImageFormat where
  | jpeg
  | png
deriving DecidableEq

/-- The MIME string of a format, as used in the `data:` URL. -/
def ImageFormat.mime : ImageFormat → String
  | .jpeg => "image/jpeg"
  | .png => "image/png"

/-- Image processing configuration (src/config/image.ts). -/
structure ImageConfig where
  width : Nat
  height : Nat
  quality : ℚ
  format : ImageFormat
deriving DecidableEq

/-- The `extension` getter of `imageConfig`:
`this.format === "image/png" ? "png" : "jpg"`. -/
def ImageConfig.extension (c : ImageConfig) : String :=
  if c.format = .png then "png" else "jpg"

/-- The configured values in src/config/image.ts. -/
def imageConfig : ImageConfig :=
  { width := 560, height := 315, quality := 85/100, format := .jpeg }

/-- Selection bounds in logical (viewport) units, the `cropBounds`
argument of `processImage`. -/
structure CropBounds where
  x : ℚ
  y : ℚ
  width : ℚ
  height : ℚ
deriving DecidableEq

/-- A pixel-space crop region, the `finalX`/`finalY`/`finalWidth`/`finalHeight`
values computed inside `processImage`. -/
structure PixelRegion where
  x : ℤ
  y : ℤ
  width : ℤ
  height : ℤ
deriving DecidableEq

/-- The coordinate arithmetic of `processImage`
(src/unnamed/part_001 lines 75-89): scale factors from screenshot vs
viewport dimensions, `Math.round` scaling of each bound, then clamping.
`Math.round` on a rational is `round` (floor of x + 1/2), which agrees
with JavaScript semantics. -/
def processImageCropRegion (cropBounds : CropBounds)
    (viewportWidth viewportHeight : ℚ)
    (screenshotWidth screenshotHeight : ℤ) : PixelRegion :=
  let scaleX : ℚ := (screenshotWidth : ℚ) / viewportWidth
  let scaleY : ℚ := (screenshotHeight : ℚ) / viewportHeight
  let scaledX : ℤ := round (cropBounds.x * scaleX)
  let scaledY : ℤ := round (cropBounds.y * scaleY)
  let scaledWidth : ℤ := round (cropBounds.width * scaleX)
  let scaledHeight : ℤ := round (cropBounds.height * scaleY)
  let finalX : ℤ := max 0 (min scaledX (screenshotWidth - 1))
  let finalY : ℤ := max 0 (min scaledY (screenshotHeight - 1))
  let finalWidth : ℤ := min scaledWidth (screenshotWidth - finalX)
  let finalHeight : ℤ := min scaledHeight (screenshotHeight - finalY)
  ⟨finalX, finalY, finalWidth, finalHeight⟩

/-- The cached authentication token of the background module
(`cachedToken`), a token string with its expiry in epoch milliseconds. -/
structure CachedToken where
  token : String
  expiresAt : ℤ
deriving DecidableEq

/-- Token validity period: 2 hours in milliseconds (`TOKEN_VALIDITY_MS`). -/
def TOKEN_VALIDITY_MS : ℤ := 2 * 60 * 60 * 1000

/-- Information carried by a non-ok HTTP response: status, status text,
the body text read by `response.text()`, and the fields the source may
extract after attempting `JSON.parse` on that body (`error.message`,
`message`, `error.param` already stringified); a field is `none` when the
body is not JSON or lacks it. -/
structure HttpErrorInfo where
  status : Nat
  statusText : String
  bodyText : String
  errMessage : Option String
  topMessage : Option String
  errParam : Option String
deriving DecidableEq

/-- Outcome of one `fetch` call as the source observes it: the promise
rejected (network error), the response was non-ok, the body failed to
parse (`response.json()` rejected), or a parsed body of type `β`. -/
inductive FetchOutcome (β : Type) where
  | netError (msg : String)
  | httpError (e : HttpErrorInfo)
  | badJson (msg : String)
  | ok (body : β)
deriving DecidableEq

/-- JavaScript `a || b` on an optional string field: `a` when present and
non-empty (truthy), otherwise `b`. -/
def jsOr (a : Option String) (b : String) : String :=
  match a with
  | some s => if s = "" then b else s
  | none => b

/-- Body of the authentication response: its `token` field
(`none` models a missing field). -/
abbrev AuthBody := Option String

/-- Result of one `getAuthToken` call: the returned token or the thrown
error message, the cache state after the call, and whether the call
issued the network authentication request. -/
structure AuthResult where
  result : Except String String
  cache : Option CachedToken
  requested : Bool

/-- The token-request part of `getAuthToken` (src/unnamed/part_001 lines
169-209), reached when no valid cached token exists: issue the
authentication `fetch`; throw on rejection, on a non-ok status, on an
unparseable body, and on a falsy `data.token`; otherwise cache
`(token, now + TOKEN_VALIDITY_MS)` and return the token. -/
def requestNewToken (cachedToken : Option CachedToken) (now : ℤ)
    (net : FetchOutcome AuthBody) : AuthResult :=
  match net with
  | .netError msg => { result := .error msg, cache := cachedToken, requested := true }
  | .httpError e =>
    { result := .error ("Authentication failed: " ++ toString e.status ++ " " ++ e.statusText),
      cache := cachedToken, requested := true }
  | .badJson msg => { result := .error msg, cache := cachedToken, requested := true }
  | .ok tokenField =>
    match tokenField with
    | none =>
      { result := .error "No token received from authentication endpoint",
        cache := cachedToken, requested := true }
    | some t =>
      if t = "" then
        { result := .error "No token received from authentication endpoint",
          cache := cachedToken, requested := true }
      else
        { result := .ok t, cache := some ⟨t, now + TOKEN_VALIDITY_MS⟩, requested := true }

/-- The `getAuthToken` function (src/unnamed/part_001 lines 149-210).
The module-level `cachedToken` variable is passed and returned
explicitly; `now` is `Date.now()`; `net` is the outcome of the
authentication `fetch`.  A falsy `publicKey` (empty string) throws the
configuration error before the cache is consulted; a cached token is
returned when `cachedToken.expiresAt > now`; otherwise the request is
made. -/
def getAuthToken (publicKey : String) (cachedToken : Option CachedToken)
    (now : ℤ) (net : FetchOutcome AuthBody) : AuthResult :=
  if publicKey = "" then
    { result := .error ("iLoveIMG Public Key not configured. " ++
        "Please create a .env file in the project root and add: " ++
        "PLASMO_PUBLIC_ILOVEIMG_PUBLIC_KEY=your_public_key_here"),
      cache := cachedToken, requested := false }
  else
    match cachedToken with
    | some ct =>
      if ct.expiresAt > now then
        { result := .ok ct.token, cache := cachedToken, requested := false }
      else
        requestNewToken cachedToken now net
    | none => requestNewToken cachedToken now net

/-- Body of the start response: its `server` and `task` fields. -/
structure StartBody where
  server : Option String
  task : Option String
deriving DecidableEq

/-- Body of the upload response: its `server_filename` field. -/
abbrev UploadBody := Option String

/-- Body of the process response: its `status` and `status_message` fields. -/
structure ProcessBody where
  status : Option String
  statusMessage : Option String
deriving DecidableEq

/-- Outcomes of the five remote calls the compression workflow can make,
in workflow order. -/
structure NetEnv where
  auth : FetchOutcome AuthBody
  start : FetchOutcome StartBody
  upload : FetchOutcome UploadBody
  process : FetchOutcome ProcessBody
  download : FetchOutcome Blob
deriving DecidableEq

/-- Size details attached to a compression result: on success the
original/compressed byte counts and the reduction string, on failure the
`fallback: true` marker. -/
inductive CompressDetails where
  | sizes (originalSize compressedSize : Nat) (reduction : String)
  | fallback
deriving DecidableEq

/-- The value `compressImage` resolves with: the blob, the compressed
flag, the optional error message, and the details object. -/
structure CompressResult where
  blob : Blob
  compressed : Bool
  error : Option String
  details : CompressDetails
deriving DecidableEq

/-- JavaScript `toFixed(1)`: the multiple of 1/10 nearest to `q` (ties
toward the larger), printed with one digit after the point. -/
def toFixed1 (q : ℚ) : String :=
  let n : ℤ := round (q * 10)
  (if n < 0 then "-" else "") ++ toString (n.natAbs / 10) ++ "." ++ toString (n.natAbs % 10)

/-- Error message thrown by the start step on a non-ok response
(src/unnamed/part_001 lines 243-277): the first truthy value among the
parsed `error.message`, the parsed `message`, the raw body text and the
status text, with stringified `error.param` details appended when
present. -/
def startHttpErrorMessage (e : HttpErrorInfo) : String :=
  let errorMessage := jsOr e.errMessage (jsOr e.topMessage
    (if e.bodyText = "" then e.statusText else e.bodyText))
  let errorParam := match e.errParam with
    | some p => p
    | none => ""
  "Start task failed (" ++ toString e.status ++ "): " ++ errorMessage ++
    (if errorParam = "" then "" else "\nDetails: " ++ errorParam)

/-- The body of the `try` block of `compressImage`
(src/unnamed/part_001 lines 223-416): the five steps run in order, each
`throw` is an `Except.error` carrying the thrown message, and the first
failure aborts the remaining steps.  Returns the downloaded blob on
success together with the cache state left by `getAuthToken`. -/
def compressSteps (publicKey : String) (cachedToken : Option CachedToken)
    (now : ℤ) (net : NetEnv) : Except String Blob :=
  match (getAuthToken publicKey cachedToken now net.auth).result with
  | .error msg => .error msg
  | .ok _token =>
    match net.start with
    | .netError msg => .error msg
    | .httpError e => .error (startHttpErrorMessage e)
    | .badJson msg => .error msg
    | .ok startData =>
      if startData.server = none ∨ startData.server = some "" ∨
          startData.task = none ∨ startData.task = some "" then
        .error "Invalid response from start endpoint"
      else
        match net.upload with
        | .netError msg => .error msg
        | .httpError e =>
          .error ("Upload failed: " ++ toString e.status ++ " " ++ e.statusText)
        | .badJson msg => .error msg
        | .ok serverFilename =>
          if serverFilename = none ∨ serverFilename = some "" then
            .error "Invalid response from upload endpoint"
          else
            match net.process with
            | .netError msg => .error msg
            | .httpError e =>
              .error ("Process failed: " ++ toString e.status ++ " " ++ e.statusText)
            | .badJson msg => .error msg
            | .ok processData =>
              if processData.status ≠ some "TaskSuccess" then
                .error ("Processing failed: " ++ jsOr processData.statusMessage "Unknown error")
              else
                match net.download with
                | .netError msg => .error msg
                | .httpError e =>
                  .error ("Download failed: " ++ toString e.status ++ " " ++ e.statusText)
                | .badJson msg => .error msg
                | .ok compressedBlob => .ok compressedBlob

/-- The `compressImage` function (src/unnamed/part_001 lines 217-447):
run the five steps inside `try`; on success resolve with the downloaded
blob, `compressed: true` and size details computed from the byte
lengths; the `catch` block converts any thrown error into the fallback
result carrying the original blob, `compressed: false`, the error
message and the `fallback` marker.  The function itself never throws.
The returned cache state is the one `getAuthToken` left (the only step
that mutates it). -/
def compressImage (publicKey : String) (cachedToken : Option CachedToken)
    (now : ℤ) (net : NetEnv) (imageBlob : Blob) :
    CompressResult × Option CachedToken :=
  let cacheAfter := (getAuthToken publicKey cachedToken now net.auth).cache
  match compressSteps publicKey cachedToken now net with
  | .ok compressedBlob =>
    ({ blob := compressedBlob, compressed := true, error := none,
       details := .sizes imageBlob.length compressedBlob.length
         (toFixed1 ((1 - (compressedBlob.length : ℚ) / (imageBlob.length : ℚ)) * 100) ++ "%") },
      cacheAfter)
  | .error msg =>
    ({ blob := imageBlob, compressed := false, error := some msg,
       details := .fallback }, cacheAfter)

/-- The base64 alphabet used by `btoa`. -/
def base64Alphabet : List Char :=
  "ABCDEFGHIJKLMNOPQRSTUVWXYZabcdefghijklmnopqrstuvwxyz0123456789+/".toList

/-- The character for a 6-bit value. -/
def base64Char (n : Nat) : Char := base64Alphabet.getD n '?'

/-- Base64 encoding of a byte list, the value of
`btoa(binaryString)` where `binaryString` holds the bytes of the blob
(the source builds `binaryString` in 8192-byte chunks, whose
concatenation is the whole byte sequence, so the encoded value only
depends on the full list). -/
def btoa : List Nat → String
  | [] => ""
  | [b0] =>
    let n := b0 % 256 * 65536
    String.mk [base64Char (n / 262144), base64Char (n / 4096 % 64)] ++ "=="
  | [b0, b1] =>
    let n := b0 % 256 * 65536 + b1 % 256 * 256
    String.mk [base64Char (n / 262144), base64Char (n / 4096 % 64),
      base64Char (n / 64 % 64)] ++ "="
  | b0 :: b1 :: b2 :: rest =>
    let n := b0 % 256 * 65536 + b1 % 256 * 256 + b2 % 256
    String.mk [base64Char (n / 262144), base64Char (n / 4096 % 64),
      base64Char (n / 64 % 64), base64Char (n % 64)] ++ btoa rest

/-- Equality on `Except` values is decidable when it is on both parts. -/
instance {ε α : Type} [DecidableEq ε] [DecidableEq α] : DecidableEq (Except ε α) := fun x y =>
  match x, y with
  | .ok a, .ok b =>
    if h : a = b then .isTrue (by rw [h]) else .isFalse (fun c => by cases c; exact h rfl)
  | .error a, .error b =>
    if h : a = b then .isTrue (by rw [h]) else .isFalse (fun c => by cases c; exact h rfl)
  | .ok _, .error _ => .isFalse (fun c => by cases c)
  | .error _, .ok _ => .isFalse (fun c => by cases c)

/-- Environment of one `handleScreenshotCapture` run: the data URL
resolved by `chrome.tabs.captureVisibleTab` (or the error it rejected
with), the blob produced by `processImage` (whose raster decoding,
cropping, resizing and encoding are opaque here; its coordinate
arithmetic is `processImageCropRegion`, or the error it threw), the
outcomes of the remote compression calls, and `Date.now()`. -/
structure CaptureEnv where
  captureDataUrl : Except String String
  transform : Except String Blob
  net : NetEnv
  nowMs : ℤ
deriving DecidableEq

/-- The object `handleScreenshotCapture` returns on success
(src/unnamed/part_001 line 542): `{ success: true, filename, imageDataUrl }`. -/
structure CaptureResponse where
  success : Bool
  filename : String
  imageDataUrl : String
deriving DecidableEq

/-- The `handleScreenshotCapture` function (src/unnamed/part_001 lines
477-547): capture the visible tab, crop/resize via `processImage`,
compress via `compressImage`, build the filename from the template id or
the timestamp, encode the final blob as a base64 data URL, and return
`{ success: true, filename, imageDataUrl }`.  Capture and transform
errors propagate (the `catch` rethrows); compression failure does not. -/
def handleScreenshotCapture (templateId : Option String)
    (publicKey : String) (cachedToken : Option CachedToken)
    (env : CaptureEnv) : Except String CaptureResponse × Option CachedToken :=
  match env.captureDataUrl with
  | .error e => (.error e, cachedToken)
  | .ok dataUrl =>
    if dataUrl = "" then (.error "Failed to capture screenshot", cachedToken)
    else
      match env.transform with
      | .error e => (.error e, cachedToken)
      | .ok resizedBlob =>
        let cr := compressImage publicKey cachedToken env.nowMs env.net resizedBlob
        let finalBlob := cr.1.blob
        let filename :=
          match templateId with
          | some tid =>
            if tid = "" then
              "thumbnail-" ++ toString env.nowMs ++ "." ++ imageConfig.extension
            else
              tid ++ "." ++ imageConfig.extension
          | none => "thumbnail-" ++ toString env.nowMs ++ "." ++ imageConfig.extension
        let imageDataUrl :=
          "data:" ++ imageConfig.format.mime ++ ";base64," ++ btoa finalBlob
        (.ok { success := true, filename := filename, imageDataUrl := imageDataUrl }, cr.2)

/-! ## Helper lemmas -/

/-- Unfolding lemma for the coordinate arithmetic of `processImage`. -/
lemma processImageCropRegion_eq (b : CropBounds) (vw vh : ℚ) (sw sh : ℤ) :
    processImageCropRegion b vw vh sw sh =
      { x := max 0 (min (round (b.x * ((sw : ℚ) / vw))) (sw - 1)),
        y := max 0 (min (round (b.y * ((sh : ℚ) / vh))) (sh - 1)),
        width := min (round (b.width * ((sw : ℚ) / vw)))
          (sw - max 0 (min (round (b.x * ((sw : ℚ) / vw))) (sw - 1))),
        height := min (round (b.height * ((sh : ℚ) / vh)))
          (sh - max 0 (min (round (b.y * ((sh : ℚ) / vh))) (sh - 1))) } := rfl

/-- Rounding a non-negative rational yields a non-negative integer. -/
lemma round_nonneg_of (q : ℚ) (h : 0 ≤ q) : 0 ≤ round q := by
  rw [round_eq, Int.le_floor]
  push_cast
  linarith

/-! ## Claim theorems -/

/-- Claim C3: the coordinate mapping computes scale factors
`scaleX = pixelWidth / logicalWidth` and `scaleY = pixelHeight / logicalHeight`,
scales x and width by `scaleX` and y and height by `scaleY` rounding each to
the nearest integer, clamps x into `[0, pixelWidth - 1]` and y into
`[0, pixelHeight - 1]`, and clamps width to
`min(scaledWidth, pixelWidth - clampedX)` (same for height); in particular
selection (1200, 100, 320, 180) at viewport 1280x720 with raw 1280x720 maps
to region (1200, 100, 80, 180). -/
theorem c3_coordinate_mapping :
    (∀ (b : CropBounds) (vw vh : ℚ) (sw sh : ℤ),
      processImageCropRegion b vw vh sw sh =
        { x := max 0 (min (round (b.x * ((sw : ℚ) / vw))) (sw - 1)),
          y := max 0 (min (round (b.y * ((sh : ℚ) / vh))) (sh - 1)),
          width := min (round (b.width * ((sw : ℚ) / vw)))
            (sw - max 0 (min (round (b.x * ((sw : ℚ) / vw))) (sw - 1))),
          height := min (round (b.height * ((sh : ℚ) / vh)))
            (sh - max 0 (min (round (b.y * ((sh : ℚ) / vh))) (sh - 1))) }) ∧
    processImageCropRegion ⟨1200, 100, 320, 180⟩ 1280 720 1280 720 =
      ⟨1200, 100, 80, 180⟩ := by
  constructor
  · exact processImageCropRegion_eq
  · simp only [processImageCropRegion]
    norm_num [round_eq]

/-- Claim C4: for every selection with non-negative width and height within
viewport bounds and every raw capture with positive pixel dimensions, the
mapped pixel crop region lies fully within the raster: its x and y are in
range, its width and height are never negative, and x + width and y + height
do not exceed the raster dimensions. -/
theorem c4_region_within_bounds (b : CropBounds) (vw vh : ℚ) (sw sh : ℤ)
    (hbx : 0 ≤ b.x) (hby : 0 ≤ b.y) (hbw : 0 ≤ b.width) (hbh : 0 ≤ b.height)
    (hxw : b.x + b.width ≤ vw) (hyh : b.y + b.height ≤ vh)
    (hvw : 0 < vw) (hvh : 0 < vh) (hsw : 0 < sw) (hsh : 0 < sh) :
    0 ≤ (processImageCropRegion b vw vh sw sh).x ∧
    (processImageCropRegion b vw vh sw sh).x < sw ∧
    0 ≤ (processImageCropRegion b vw vh sw sh).y ∧
    (processImageCropRegion b vw vh sw sh).y < sh ∧
    0 ≤ (processImageCropRegion b vw vh sw sh).width ∧
    0 ≤ (processImageCropRegion b vw vh sw sh).height ∧
    (processImageCropRegion b vw vh sw sh).x +
      (processImageCropRegion b vw vh sw sh).width ≤ sw ∧
    (processImageCropRegion b vw vh sw sh).y +
      (processImageCropRegion b vw vh sw sh).height ≤ sh := by
  rw [processImageCropRegion_eq]
  have hW : 0 ≤ round (b.width * ((sw : ℚ) / vw)) :=
    round_nonneg_of _ (mul_nonneg hbw (div_nonneg (by exact_mod_cast hsw.le) hvw.le))
  have hH : 0 ≤ round (b.height * ((sh : ℚ) / vh)) :=
    round_nonneg_of _ (mul_nonneg hbh (div_nonneg (by exact_mod_cast hsh.le) hvh.le))
  simp only
  omega

/-- Witness for C4 at scenario A: selection (100, 100, 320, 180) at
viewport 1280x720, raw capture 1280x720. -/
theorem c4_region_within_bounds_witness :
    ((0 : ℚ) ≤ 100 ∧ (0 : ℚ) ≤ 320 ∧ (100 : ℚ) + 320 ≤ 1280 ∧ (0 : ℤ) < 1280) ∧
    (0 ≤ (processImageCropRegion ⟨100, 100, 320, 180⟩ 1280 720 1280 720).x ∧
     (processImageCropRegion ⟨100, 100, 320, 180⟩ 1280 720 1280 720).x < 1280 ∧
     0 ≤ (processImageCropRegion ⟨100, 100, 320, 180⟩ 1280 720 1280 720).y ∧
     (processImageCropRegion ⟨100, 100, 320, 180⟩ 1280 720 1280 720).y < 720 ∧
     0 ≤ (processImageCropRegion ⟨100, 100, 320, 180⟩ 1280 720 1280 720).width ∧
     0 ≤ (processImageCropRegion ⟨100, 100, 320, 180⟩ 1280 720 1280 720).height ∧
     (processImageCropRegion ⟨100, 100, 320, 180⟩ 1280 720 1280 720).x +
       (processImageCropRegion ⟨100, 100, 320, 180⟩ 1280 720 1280 720).width ≤ 1280 ∧
     (processImageCropRegion ⟨100, 100, 320, 180⟩ 1280 720 1280 720).y +
       (processImageCropRegion ⟨100, 100, 320, 180⟩ 1280 720 1280 720).height ≤ 720) :=
  ⟨⟨by decide, by decide, by norm_num, by decide⟩,
    c4_region_within_bounds ⟨100, 100, 320, 180⟩ 1280 720 1280 720
      (by decide) (by decide) (by decide) (by decide) (by norm_num) (by norm_num)
      (by decide) (by decide) (by decide) (by decide)⟩

/-- Claim C5: `getAuthToken` returns the cached credential without a network
request whenever the current time is strictly before the cached expiry;
otherwise (with a configured key) it performs one authentication request and
on success caches the new token with expiry exactly 7,200,000 ms after the
time of the request; consequently two calls within the 2-hour window issue
exactly one authentication network request. -/
theorem c5_token_caching :
    TOKEN_VALIDITY_MS = 7200000 ∧
    (∀ (pk : String) (ct : CachedToken) (now : ℤ) (net : FetchOutcome AuthBody),
      pk ≠ "" → now < ct.expiresAt →
      getAuthToken pk (some ct) now net =
        { result := .ok ct.token, cache := some ct, requested := false }) ∧
    (∀ (pk : String) (cache : Option CachedToken) (now : ℤ) (net : FetchOutcome AuthBody),
      pk ≠ "" → (∀ ct, cache = some ct → ct.expiresAt ≤ now) →
      (getAuthToken pk cache now net).requested = true ∧
      (∀ t : String, net = .ok (some t) → t ≠ "" →
        getAuthToken pk cache now net =
          { result := .ok t, cache := some ⟨t, now + TOKEN_VALIDITY_MS⟩,
            requested := true })) ∧
    (∀ (pk t : String) (t0 t1 : ℤ) (net2 : FetchOutcome AuthBody),
      pk ≠ "" → t ≠ "" → t1 < t0 + TOKEN_VALIDITY_MS →
      (getAuthToken pk none t0 (.ok (some t))).requested = true ∧
      (getAuthToken pk ((getAuthToken pk none t0 (.ok (some t))).cache) t1 net2).requested
        = false ∧
      (getAuthToken pk ((getAuthToken pk none t0 (.ok (some t))).cache) t1 net2).result
        = .ok t) := by
  refine ⟨rfl, ?_, ?_, ?_⟩
  · intro pk ct now net hpk hvalid
    simp [getAuthToken, hpk, hvalid]
  · intro pk cache now net hpk hexp
    cases cache with
    | none =>
      refine ⟨?_, ?_⟩
      · simp only [getAuthToken, if_neg hpk]
        cases net with
        | ok tf =>
          cases tf with
          | none => rfl
          | some t =>
            by_cases ht : t = "" <;> simp [requestNewToken, ht]
        | netError m => rfl
        | httpError e => rfl
        | badJson m => rfl
      · intro t hnet ht
        subst hnet
        simp [getAuthToken, hpk, requestNewToken, ht]
    | some ct =>
      have hle : ct.expiresAt ≤ now := hexp ct rfl
      have hnotgt : ¬ ct.expiresAt > now := not_lt.mpr hle
      refine ⟨?_, ?_⟩
      · simp only [getAuthToken, if_neg hpk, if_neg hnotgt]
        cases net with
        | ok tf =>
          cases tf with
          | none => rfl
          | some t =>
            by_cases ht : t = "" <;> simp [requestNewToken, ht]
        | netError m => rfl
        | httpError e => rfl
        | badJson m => rfl
      · intro t hnet ht
        subst hnet
        simp [getAuthToken, hpk, hnotgt, requestNewToken, ht]
  · intro pk t t0 t1 net2 hpk ht hwin
    have h1 : getAuthToken pk none t0 (.ok (some t)) =
        { result := .ok t, cache := some ⟨t, t0 + TOKEN_VALIDITY_MS⟩, requested := true } := by
      simp [getAuthToken, hpk, requestNewToken, ht]
    rw [h1]
    simp [getAuthToken, hpk, hwin]

/-- Witness for C5: a cached token with expiry 10 at time 5 is returned
without a request. -/
theorem c5_token_caching_witness :
    (("k" : String) ≠ "" ∧ (5 : ℤ) < 10) ∧
    getAuthToken "k" (some ⟨"tok", 10⟩) 5 (.netError "offline") =
      { result := .ok "tok", cache := some ⟨"tok", 10⟩, requested := false } :=
  ⟨⟨by decide, by decide⟩,
    c5_token_caching.2.1 "k" ⟨"tok", 10⟩ 5 (.netError "offline") (by decide) (by decide)⟩

/-- Claim C9: with no public API key configured, `getAuthToken` fails with the
configuration error even when a still-valid cached token exists, and issues no
request: the configuration check precedes the cache lookup. -/
theorem c9_config_check_precedes_cache (ct : CachedToken) (now : ℤ)
    (net : FetchOutcome AuthBody) (hvalid : now < ct.expiresAt) :
    getAuthToken "" (some ct) now net =
      { result := .error ("iLoveIMG Public Key not configured. " ++
          "Please create a .env file in the project root and add: " ++
          "PLASMO_PUBLIC_ILOVEIMG_PUBLIC_KEY=your_public_key_here"),
        cache := some ct, requested := false } := by
  simp [getAuthToken]

/-- Witness for C9: a valid cached token at time 5 with expiry 10 is not
returned when the key is unconfigured. -/
theorem c9_config_check_precedes_cache_witness :
    (5 : ℤ) < 10 ∧
    getAuthToken "" (some ⟨"tok", 10⟩) 5 (.ok (some "fresh")) =
      { result := .error ("iLoveIMG Public Key not configured. " ++
          "Please create a .env file in the project root and add: " ++
          "PLASMO_PUBLIC_ILOVEIMG_PUBLIC_KEY=your_public_key_here"),
        cache := some ⟨"tok", 10⟩, requested := false } :=
  ⟨by decide, c9_config_check_precedes_cache ⟨"tok", 10⟩ 5 (.ok (some "fresh")) (by decide)⟩

/-- Helper: the request part of `getAuthToken` leaves the cache unchanged
whenever it results in an error. -/
lemma requestNewToken_cache_of_error (cachedToken : Option CachedToken) (now : ℤ)
    (net : FetchOutcome AuthBody) (e : String)
    (h : (requestNewToken cachedToken now net).result = .error e) :
    (requestNewToken cachedToken now net).cache = cachedToken := by
  cases net with
  | netError m => rfl
  | httpError e2 => rfl
  | badJson m => rfl
  | ok tf =>
    cases tf with
    | none => rfl
    | some t =>
      by_cases ht : t = ""
      · simp [requestNewToken, ht]
      · simp [requestNewToken, ht] at h

/-- Claim C10: on any failure of the authentication request (network error,
non-ok HTTP status, or a response missing the token field), `getAuthToken`
leaves the cached credential unchanged: the cache is mutated only after a
token has been successfully received. -/
theorem c10_failed_refresh_preserves_cache (pk : String)
    (cache : Option CachedToken) (now : ℤ) (net : FetchOutcome AuthBody)
    (e : String) (h : (getAuthToken pk cache now net).result = .error e) :
    (getAuthToken pk cache now net).cache = cache := by
  by_cases hpk : pk = ""
  · simp [getAuthToken, hpk]
  · cases cache with
    | none =>
      simp only [getAuthToken, if_neg hpk] at h ⊢
      exact requestNewToken_cache_of_error none now net e h
    | some ct =>
      by_cases hv : ct.expiresAt > now
      · simp [getAuthToken, hpk, hv] at h
      · simp only [getAuthToken, if_neg hpk, if_neg hv] at h ⊢
        exact requestNewToken_cache_of_error (some ct) now net e h

/-- Witness for C10: a failed refresh (HTTP 401) with an expired cached token
leaves the expired entry in place. -/
theorem c10_failed_refresh_preserves_cache_witness :
    (getAuthToken "k" (some ⟨"old", 3⟩) 5
        (.httpError ⟨401, "Unauthorized", "", none, none, none⟩)).result =
      .error "Authentication failed: 401 Unauthorized" ∧
    (getAuthToken "k" (some ⟨"old", 3⟩) 5
        (.httpError ⟨401, "Unauthorized", "", none, none, none⟩)).cache =
      some ⟨"old", 3⟩ :=
  ⟨by decide,
    c10_failed_refresh_preserves_cache "k" (some ⟨"old", 3⟩) 5
      (.httpError ⟨401, "Unauthorized", "", none, none, none⟩)
      "Authentication failed: 401 Unauthorized" (by decide)⟩

/-- The degraded outcome shape of `compressImage`: not compressed, the
original blob, and some error message present. -/
def isFallback (r : CompressResult) (b : Blob) : Prop :=
  r.compressed = false ∧ r.blob = b ∧ ∃ m, r.error = some m

/-- Helper: with a configured key and a truthy token in the auth response,
`getAuthToken` returns some token (from the cache or from the response). -/
lemma getAuthToken_result_ok (pk : String) (cache : Option CachedToken) (now : ℤ)
    (t : String) (hpk : pk ≠ "") (ht : t ≠ "") :
    ∃ t', (getAuthToken pk cache now (.ok (some t))).result = .ok t' := by
  cases cache with
  | none => exact ⟨t, by simp [getAuthToken, hpk, requestNewToken, ht]⟩
  | some ct =>
    by_cases hv : ct.expiresAt > now
    · exact ⟨ct.token, by simp [getAuthToken, hpk, hv]⟩
    · exact ⟨t, by simp [getAuthToken, hpk, hv, requestNewToken, ht]⟩

/-- Helper: inversion of a successful step run — success forces a configured
key, a successful authentication, truthy start fields, a truthy upload
filename, a `TaskSuccess` process status, and an ok download whose body is
the returned blob. -/
lemma compressSteps_ok_inv (pk : String) (cache : Option CachedToken) (now : ℤ)
    (net : NetEnv) (b : Blob) (h : compressSteps pk cache now net = .ok b) :
    pk ≠ "" ∧ (∃ t', (getAuthToken pk cache now net.auth).result = .ok t') ∧
    (∃ sb, net.start = .ok sb ∧
      ¬(sb.server = none ∨ sb.server = some "" ∨ sb.task = none ∨ sb.task = some "")) ∧
    (∃ uf, net.upload = .ok uf ∧ ¬(uf = none ∨ uf = some "")) ∧
    (∃ p, net.process = .ok p ∧ p.status = some "TaskSuccess") ∧
    net.download = .ok b := by
  have hpk : pk ≠ "" := by
    intro he
    subst he
    simp [compressSteps, getAuthToken] at h
  refine ⟨hpk, ?_⟩
  revert h
  unfold compressSteps
  split
  · intro h; simp at h
  · next tk heqa =>
    refine fun h => ⟨⟨tk, heqa⟩, ?_⟩
    revert h
    split
    · intro h; simp at h
    · intro h; simp at h
    · intro h; simp at h
    · next startData heqs =>
      split
      · intro h; simp at h
      · next hsok =>
        refine fun h => ⟨⟨startData, heqs, hsok⟩, ?_⟩
        revert h
        split
        · intro h; simp at h
        · intro h; simp at h
        · intro h; simp at h
        · next uf hequ =>
          split
          · intro h; simp at h
          · next huok =>
            refine fun h => ⟨⟨uf, hequ, huok⟩, ?_⟩
            revert h
            split
            · intro h; simp at h
            · intro h; simp at h
            · intro h; simp at h
            · next p heqp =>
              split
              · intro h; simp at h
              · next hst =>
                push_neg at hst
                refine fun h => ⟨⟨p, heqp, hst⟩, ?_⟩
                revert h
                split
                · intro h; simp at h
                · intro h; simp at h
                · intro h; simp at h
                · next cb heqd =>
                  intro h
                  cases h
                  exact heqd

/-- Claim C1: for every input image buffer and every environment,
`compressImage` returns a total outcome that is either a successful
compression or the degraded outcome with `compressed = false`, an error
message, and the final buffer byte-equal to the input buffer; in
particular the degraded outcome is produced at each point of failure of
the 5-step workflow: configuration error, authentication failure, non-ok
start response, upload response missing its field, non-success process
status, and download network error. -/
theorem c1_compress_never_throws :
    (∀ (pk : String) (cache : Option CachedToken) (now : ℤ) (net : NetEnv) (blob : Blob),
      ((compressImage pk cache now net blob).1.compressed = true ∧
        (compressImage pk cache now net blob).1.error = none) ∨
      isFallback (compressImage pk cache now net blob).1 blob) ∧
    (∀ (cache : Option CachedToken) (now : ℤ) (net : NetEnv) (blob : Blob),
      isFallback (compressImage "" cache now net blob).1 blob) ∧
    (∀ (pk : String) (cache : Option CachedToken) (now : ℤ) (net : NetEnv) (blob : Blob)
      (m : String), (getAuthToken pk cache now net.auth).result = .error m →
      isFallback (compressImage pk cache now net blob).1 blob) ∧
    (∀ (pk : String) (cache : Option CachedToken) (now : ℤ) (net : NetEnv) (blob : Blob)
      (e : HttpErrorInfo), net.start = .httpError e →
      isFallback (compressImage pk cache now net blob).1 blob) ∧
    (∀ (pk : String) (cache : Option CachedToken) (now : ℤ) (net : NetEnv) (blob : Blob),
      net.upload = .ok none →
      isFallback (compressImage pk cache now net blob).1 blob) ∧
    (∀ (pk : String) (cache : Option CachedToken) (now : ℤ) (net : NetEnv) (blob : Blob)
      (sm : Option String), net.process = .ok ⟨some "TaskError", sm⟩ →
      isFallback (compressImage pk cache now net blob).1 blob) ∧
    (∀ (pk : String) (cache : Option CachedToken) (now : ℤ) (net : NetEnv) (blob : Blob)
      (m : String), net.download = .netError m →
      isFallback (compressImage pk cache now net blob).1 blob) := by
  have base : ∀ (pk : String) (cache : Option CachedToken) (now : ℤ) (net : NetEnv) (blob : Blob),
      ((compressImage pk cache now net blob).1.compressed = true ∧
        (compressImage pk cache now net blob).1.error = none) ∨
      isFallback (compressImage pk cache now net blob).1 blob := by
    intro pk cache now net blob
    rcases hs : compressSteps pk cache now net with m | b
    · right
      simp [compressImage, hs, isFallback]
    · left
      simp [compressImage, hs]
  have notok : ∀ (pk : String) (cache : Option CachedToken) (now : ℤ) (net : NetEnv) (blob : Blob),
      (∀ b, compressSteps pk cache now net ≠ .ok b) →
      isFallback (compressImage pk cache now net blob).1 blob := by
    intro pk cache now net blob hno
    rcases base pk cache now net blob with ⟨hc, _⟩ | hf
    · exfalso
      revert hc
      simp only [compressImage]
      rcases hs : compressSteps pk cache now net with m | b
      · simp
      · exact absurd hs (hno b)
    · exact hf
  refine ⟨base, ?_, ?_, ?_, ?_, ?_, ?_⟩
  · intro cache now net blob
    exact notok _ _ _ _ _ (fun b hb => (compressSteps_ok_inv _ _ _ _ _ hb).1 rfl)
  · intro pk cache now net blob m hm
    refine notok _ _ _ _ _ (fun b hb => ?_)
    obtain ⟨t', ht'⟩ := (compressSteps_ok_inv _ _ _ _ _ hb).2.1
    rw [hm] at ht'
    exact absurd ht' (by simp)
  · intro pk cache now net blob e he
    refine notok _ _ _ _ _ (fun b hb => ?_)
    obtain ⟨sb, hsb, -⟩ := (compressSteps_ok_inv _ _ _ _ _ hb).2.2.1
    rw [he] at hsb
    exact absurd hsb (by simp)
  · intro pk cache now net blob hu
    refine notok _ _ _ _ _ (fun b hb => ?_)
    obtain ⟨uf, huf, hne⟩ := (compressSteps_ok_inv _ _ _ _ _ hb).2.2.2.1
    rw [hu] at huf
    cases huf
    exact hne (Or.inl rfl)
  · intro pk cache now net blob sm hp
    refine notok _ _ _ _ _ (fun b hb => ?_)
    obtain ⟨p, hpe, hps⟩ := (compressSteps_ok_inv _ _ _ _ _ hb).2.2.2.2.1
    rw [hp] at hpe
    cases hpe
    simp at hps
  · intro pk cache now net blob m hd
    refine notok _ _ _ _ _ (fun b hb => ?_)
    have hdl := (compressSteps_ok_inv _ _ _ _ _ hb).2.2.2.2.2
    rw [hd] at hdl
    exact absurd hdl (by simp)

/-- Witness for C1: an authentication network error with an empty cache
degrades to the original buffer with an error message. -/
theorem c1_compress_never_throws_witness :
    (getAuthToken "k" none 0
      (NetEnv.auth ⟨.netError "offline", .ok ⟨some "srv", some "task1"⟩,
        .ok (some "up.jpg"), .ok ⟨some "TaskSuccess", none⟩, .ok [1, 2]⟩)).result =
      .error "offline" ∧
    isFallback (compressImage "k" none 0
      ⟨.netError "offline", .ok ⟨some "srv", some "task1"⟩, .ok (some "up.jpg"),
        .ok ⟨some "TaskSuccess", none⟩, .ok [1, 2]⟩ [5, 6, 7]).1 [5, 6, 7] :=
  ⟨by decide,
    c1_compress_never_throws.2.2.1 "k" none 0
      ⟨.netError "offline", .ok ⟨some "srv", some "task1"⟩, .ok (some "up.jpg"),
        .ok ⟨some "TaskSuccess", none⟩, .ok [1, 2]⟩ [5, 6, 7] "offline" (by decide)⟩

/-- Claim C6: a process-step response whose status is not `TaskSuccess` is a
failure: the download step is never consulted (the outcome is the same for
every download response), and the outcome is not compressed, carries the
original buffer, and its error message contains `Processing failed`. -/
theorem c6_process_status_failure (pk : String) (cache : Option CachedToken) (now : ℤ)
    (net : NetEnv) (blob : Blob) (tk sv tsk fn st : String) (sm : Option String)
    (hpk : pk ≠ "") (hauth : net.auth = .ok (some tk)) (htk : tk ≠ "")
    (hstart : net.start = .ok ⟨some sv, some tsk⟩) (hsv : sv ≠ "") (htsk : tsk ≠ "")
    (hupload : net.upload = .ok (some fn)) (hfn : fn ≠ "")
    (hprocess : net.process = .ok ⟨some st, sm⟩) (hst : st ≠ "TaskSuccess") :
    (∀ d1 d2 : FetchOutcome Blob,
      compressImage pk cache now { net with download := d1 } blob =
      compressImage pk cache now { net with download := d2 } blob) ∧
    (compressImage pk cache now net blob).1.compressed = false ∧
    (compressImage pk cache now net blob).1.blob = blob ∧
    (compressImage pk cache now net blob).1.error =
      some ("Processing failed: " ++ jsOr sm "Unknown error") := by
  obtain ⟨t', ht'⟩ := getAuthToken_result_ok pk cache now tk hpk htk
  have key : ∀ net' : NetEnv, net'.auth = .ok (some tk) →
      net'.start = .ok ⟨some sv, some tsk⟩ → net'.upload = .ok (some fn) →
      net'.process = .ok ⟨some st, sm⟩ →
      compressSteps pk cache now net' =
        .error ("Processing failed: " ++ jsOr sm "Unknown error") := by
    intro net' ha hs hu hp
    unfold compressSteps
    rw [ha, ht', hs, hu, hp]
    simp [hsv, htsk, hfn, hst]
  have knet := key net hauth hstart hupload hprocess
  refine ⟨?_, ?_, ?_, ?_⟩
  · intro d1 d2
    have k1 := key { net with download := d1 } hauth hstart hupload hprocess
    have k2 := key { net with download := d2 } hauth hstart hupload hprocess
    simp only [compressImage, k1, k2]
  · simp [compressImage, knet]
  · simp [compressImage, knet]
  · simp [compressImage, knet]

/-- Witness for C6: scenario D, a `TaskError` process response with no
status message. -/
theorem c6_process_status_failure_witness :
    ("TaskError" : String) ≠ "TaskSuccess" ∧
    ((compressImage "k" none 0
        ⟨.ok (some "tok"), .ok ⟨some "srv", some "task1"⟩, .ok (some "up.jpg"),
          .ok ⟨some "TaskError", none⟩, .ok [1, 2]⟩ [5, 6]).1.compressed = false ∧
     (compressImage "k" none 0
        ⟨.ok (some "tok"), .ok ⟨some "srv", some "task1"⟩, .ok (some "up.jpg"),
          .ok ⟨some "TaskError", none⟩, .ok [1, 2]⟩ [5, 6]).1.blob = [5, 6] ∧
     (compressImage "k" none 0
        ⟨.ok (some "tok"), .ok ⟨some "srv", some "task1"⟩, .ok (some "up.jpg"),
          .ok ⟨some "TaskError", none⟩, .ok [1, 2]⟩ [5, 6]).1.error =
        some ("Processing failed: " ++ jsOr none "Unknown error")) :=
  ⟨by decide,
    (c6_process_status_failure "k" none 0
      ⟨.ok (some "tok"), .ok ⟨some "srv", some "task1"⟩, .ok (some "up.jpg"),
        .ok ⟨some "TaskError", none⟩, .ok [1, 2]⟩ [5, 6]
      "tok" "srv" "task1" "up.jpg" "TaskError" none
      (by decide) rfl (by decide) rfl (by decide) (by decide) rfl (by decide)
      rfl (by decide)).2⟩

/-- Claim C7: on a fully successful workflow with positive original size, the
reported size details are the original and compressed byte lengths together
with the reduction `(1 - compressedSize / originalSize) * 100` rounded to one
decimal place; in particular 50000 to 12000 reports a 76.0 percent
reduction. -/
theorem c7_reduction_percentage (pk : String) (cache : Option CachedToken) (now : ℤ)
    (net : NetEnv) (blob dl : Blob) (tk sv tsk fn : String) (sm : Option String)
    (hpk : pk ≠ "") (hauth : net.auth = .ok (some tk)) (htk : tk ≠ "")
    (hstart : net.start = .ok ⟨some sv, some tsk⟩) (hsv : sv ≠ "") (htsk : tsk ≠ "")
    (hupload : net.upload = .ok (some fn)) (hfn : fn ≠ "")
    (hprocess : net.process = .ok ⟨some "TaskSuccess", sm⟩)
    (hdownload : net.download = .ok dl)
    (hpos : 0 < blob.length) :
    (compressImage pk cache now net blob).1.compressed = true ∧
    (compressImage pk cache now net blob).1.blob = dl ∧
    (compressImage pk cache now net blob).1.details =
      .sizes blob.length dl.length
        (toFixed1 ((1 - (dl.length : ℚ) / (blob.length : ℚ)) * 100) ++ "%") ∧
    (blob.length = 50000 → dl.length = 12000 →
      (compressImage pk cache now net blob).1.details = .sizes 50000 12000 "76.0%") := by
  obtain ⟨t', ht'⟩ := getAuthToken_result_ok pk cache now tk hpk htk
  have key : compressSteps pk cache now net = .ok dl := by
    unfold compressSteps
    rw [hauth, ht', hstart, hupload, hprocess, hdownload]
    simp [hsv, htsk, hfn]
  refine ⟨?_, ?_, ?_, ?_⟩
  · simp [compressImage, key]
  · simp [compressImage, key]
  · simp [compressImage, key]
  · intro h50 h12
    simp only [compressImage, key, h50, h12]
    have hred : toFixed1 ((1 - (12000 : ℚ) / (50000 : ℚ)) * 100) ++ "%" = "76.0%" := by
      have h76 : (1 - (12000 : ℚ) / (50000 : ℚ)) * 100 = 76 := by norm_num
      rw [h76]
      simp only [toFixed1]
      norm_num [round_eq]
      decide
    push_cast at hred ⊢
    rw [hred]

/-- Witness for C7: scenario E with concrete 50000-byte and 12000-byte
blobs. -/
theorem c7_reduction_percentage_witness :
    (0 < (List.replicate 50000 7).length ∧
      (List.replicate 50000 7).length = 50000 ∧
      (List.replicate 12000 3).length = 12000) ∧
    (compressImage "k" none 0
        ⟨.ok (some "tok"), .ok ⟨some "srv", some "task1"⟩, .ok (some "up.jpg"),
          .ok ⟨some "TaskSuccess", none⟩, .ok (List.replicate 12000 3)⟩
        (List.replicate 50000 7)).1.details = .sizes 50000 12000 "76.0%" :=
  ⟨⟨by rw [List.length_replicate]; decide,
      List.length_replicate 50000 7, List.length_replicate 12000 3⟩,
    (c7_reduction_percentage "k" none 0
      ⟨.ok (some "tok"), .ok ⟨some "srv", some "task1"⟩, .ok (some "up.jpg"),
        .ok ⟨some "TaskSuccess", none⟩, .ok (List.replicate 12000 3)⟩
      (List.replicate 50000 7) (List.replicate 12000 3)
      "tok" "srv" "task1" "up.jpg" none
      (by decide) rfl (by decide) rfl (by decide) (by decide) rfl (by decide)
      rfl rfl (by rw [List.length_replicate]; decide)).2.2.2
      (List.length_replicate 50000 7) (List.length_replicate 12000 3)⟩

/-- Counterexample to claim C2: the value `handleScreenshotCapture` returns
does not contain the compression provenance.  Two runs that differ only in
the compression outcome — the first fails at the process step and falls back,
the second compresses successfully to the same bytes — produce different
`compressed` flags in `compressImage` but identical capture results, so the
returned result cannot contain the `compressed` flag, the error message or
the size details. -/
theorem c2_provenance_not_returned_counterexample :
    (compressImage "k" none 0
        ⟨.ok (some "tok"), .ok ⟨some "srv", some "task1"⟩, .ok (some "up.jpg"),
          .ok ⟨some "TaskError", some "boom"⟩, .ok [1, 2]⟩ [1, 2]).1.compressed = false ∧
    (compressImage "k" none 0
        ⟨.ok (some "tok"), .ok ⟨some "srv", some "task1"⟩, .ok (some "up.jpg"),
          .ok ⟨some "TaskSuccess", none⟩, .ok [1, 2]⟩ [1, 2]).1.compressed = true ∧
    handleScreenshotCapture (some "tmpl") "k" none
        ⟨.ok "data:capture", .ok [1, 2],
          ⟨.ok (some "tok"), .ok ⟨some "srv", some "task1"⟩, .ok (some "up.jpg"),
            .ok ⟨some "TaskError", some "boom"⟩, .ok [1, 2]⟩, 0⟩ =
      handleScreenshotCapture (some "tmpl") "k" none
        ⟨.ok "data:capture", .ok [1, 2],
          ⟨.ok (some "tok"), .ok ⟨some "srv", some "task1"⟩, .ok (some "up.jpg"),
            .ok ⟨some "TaskSuccess", none⟩, .ok [1, 2]⟩, 0⟩ :=
  ⟨by decide, by decide, by decide⟩

/-- Claim C2 as amended: for every successful capture the terminal result
contains the final image buffer (base64-encoded in the data URL) and the
filename, regardless of whether compression succeeded or failed; the
compression provenance itself is not part of the returned result. -/
theorem c2_capture_result_content (tid : Option String) (pk : String)
    (cache : Option CachedToken) (env : CaptureEnv) (du : String) (blob : Blob)
    (hcap : env.captureDataUrl = .ok du) (hdu : du ≠ "")
    (htr : env.transform = .ok blob) :
    (handleScreenshotCapture tid pk cache env).1 = .ok
      { success := true,
        filename :=
          (match tid with
          | some t =>
            if t = "" then
              "thumbnail-" ++ toString env.nowMs ++ "." ++ imageConfig.extension
            else t ++ "." ++ imageConfig.extension
          | none => "thumbnail-" ++ toString env.nowMs ++ "." ++ imageConfig.extension),
        imageDataUrl := "data:" ++ imageConfig.format.mime ++ ";base64," ++
          btoa (compressImage pk cache env.nowMs env.net blob).1.blob } := by
  obtain ⟨cdu, tr, net, nowMs⟩ := env
  simp only at hcap htr
  subst hcap htr
  simp [handleScreenshotCapture, hdu]

/-- Witness for the amended C2: a concrete capture whose compression fails
at authentication still returns the buffer and the filename. -/
theorem c2_capture_result_content_witness :
    ("data:capture" : String) ≠ "" ∧
    (handleScreenshotCapture (some "tmpl") "k" none
        ⟨.ok "data:capture", .ok [1, 2],
          ⟨.netError "offline", .netError "x", .netError "x", .netError "x",
            .netError "x"⟩, 0⟩).1 = .ok
      { success := true,
        filename := "tmpl" ++ "." ++ imageConfig.extension,
        imageDataUrl := "data:" ++ imageConfig.format.mime ++ ";base64," ++
          btoa (compressImage "k" none 0
            ⟨.netError "offline", .netError "x", .netError "x", .netError "x",
              .netError "x"⟩ [1, 2]).1.blob } :=
  ⟨by decide,
    c2_capture_result_content (some "tmpl") "k" none
      ⟨.ok "data:capture", .ok [1, 2],
        ⟨.netError "offline", .netError "x", .netError "x", .netError "x",
          .netError "x"⟩, 0⟩ "data:capture" [1, 2] rfl (by decide) rfl⟩

/-- Claim C8: the output filename is `templateId + "." + extension` when the
template id is a non-empty trimmed string and `"thumbnail-" + epochMs + "." +
extension` otherwise, where the extension is `jpg` for `image/jpeg` and `png`
for `image/png`.  The trimmed-input hypothesis reflects the upstream popup,
which always sends `templateId.trim()`. -/
theorem c8_filename_construction (tid : Option String) (pk : String)
    (cache : Option CachedToken) (env : CaptureEnv) (du : String) (blob : Blob)
    (hcap : env.captureDataUrl = .ok du) (hdu : du ≠ "")
    (htr : env.transform = .ok blob)
    (htrim : ∀ s, tid = some s → s.trim = s) :
    (∀ c : ImageConfig, (c.format = .jpeg → c.extension = "jpg") ∧
      (c.format = .png → c.extension = "png")) ∧
    ∃ r, (handleScreenshotCapture tid pk cache env).1 = .ok r ∧
      r.filename =
        (match tid with
        | some s =>
          if s.trim = "" then
            "thumbnail-" ++ toString env.nowMs ++ "." ++ imageConfig.extension
          else s ++ "." ++ imageConfig.extension
        | none => "thumbnail-" ++ toString env.nowMs ++ "." ++ imageConfig.extension) := by
  constructor
  · intro c
    constructor <;> intro h <;> simp [ImageConfig.extension, h]
  · obtain ⟨cdu, tr, net, nowMs⟩ := env
    simp only at hcap htr
    subst hcap htr
    have hres : (handleScreenshotCapture tid pk cache ⟨.ok du, .ok blob, net, nowMs⟩).1 = .ok
        { success := true,
          filename :=
            (match tid with
            | some t =>
              if t = "" then
                "thumbnail-" ++ toString nowMs ++ "." ++ imageConfig.extension
              else t ++ "." ++ imageConfig.extension
            | none => "thumbnail-" ++ toString nowMs ++ "." ++ imageConfig.extension),
          imageDataUrl := "data:" ++ imageConfig.format.mime ++ ";base64," ++
            btoa (compressImage pk cache nowMs net blob).1.blob } := by
      simp [handleScreenshotCapture, hdu]
      cases tid <;> rfl
    refine ⟨_, hres, ?_⟩
    cases tid with
    | none => rfl
    | some s =>
      have hs : s.trim = s := htrim s rfl
      simp only [hs]

/-- Witness for C8: a capture with no template id gets the timestamp
filename. -/
theorem c8_filename_construction_witness :
    ("data:capture" : String) ≠ "" ∧
    ((∀ c : ImageConfig, (c.format = .jpeg → c.extension = "jpg") ∧
        (c.format = .png → c.extension = "png")) ∧
      ∃ r, (handleScreenshotCapture none "k" none
          ⟨.ok "data:capture", .ok [1, 2],
            ⟨.netError "x", .netError "x", .netError "x", .netError "x",
              .netError "x"⟩, 0⟩).1 = .ok r ∧
        r.filename = "thumbnail-" ++ toString (0 : ℤ) ++ "." ++ imageConfig.extension) :=
  ⟨by decide,
    c8_filename_construction none "k" none
      ⟨.ok "data:capture", .ok [1, 2],
        ⟨.netError "x", .netError "x", .netError "x", .netError "x",
          .netError "x"⟩, 0⟩ "data:capture" [1, 2] rfl (by decide) rfl
      (fun s h => Option.noConfusion h)⟩

end SnapRatio
